import Mathlib

set_option maxRecDepth 100000

/-!
A shallow embedding of the HoloLearn response-orchestration core:
the topic registry and intent resolution of `AIOrchestrator`, the scene
state operated on by `SceneManager` (model cache, animation list), and the
sequential, per-action-failure-tolerant executor and dispatch loop of
`UIManager` (`executeSceneActions`, `handleAIResponse`, `loadTopic`).

Rendering internals (Three.js meshes, cameras, lights, the render loop),
DOM wiring, speech synthesis/recognition and the quiz DOM surface are
external collaborators: they are modelled only through their observable
effect on the core state (model cache entries, registered animation
parameters, emitted chat/speech text, the surfaced quiz).  Numeric values
are rationals; the source's decimal literals are written as exact
fractions (`mkRat 3 2` is `1.5`, `mkRat 1 100` is `0.01`, ...) so that
every value kernel-reduces.  Asynchronous asset loading is modelled by an oracle
`fetchOk : String → Bool` saying whether the network fetch of a given
model asset succeeds; caught exceptions are `Except` errors, and a JS
`console.error` inside the executor's `catch` becomes a `some msg` entry
in the executor's outcome log.
-/

/-- A 3-component vector: the plain `{x, y, z}` position/center objects of
the source. -/
structure Vec3 where
  x : Rat
  y : Rat
  z : Rat
deriving DecidableEq, Repr

/-- The `{x: 0, y: 0, z: 0}` origin default used throughout the source. -/
def vzero : Vec3 := ⟨0, 0, 0⟩

/-- A scene-action record as it appears in the topic registry
(`{ type: 'loadModel', model: ..., position: ..., scale: ... }` or
`{ type: 'animate', animation: ..., object: ..., ... }`).  These are
duck-typed JS objects; a field a template omits is `none` (JS
`undefined`). -/
structure SceneAction where
  type : String
  model : Option String := none
  position : Option Vec3 := none
  scale : Option Rat := none
  animation : Option String := none
  object : Option String := none
  center : Option Vec3 := none
  speed : Option Rat := none
  radius : Option Rat := none
  intensity : Option Rat := none
deriving DecidableEq, Repr

/-- JS `v || d` on an optional numeric field: both `undefined` and `0` are
falsy, so either one yields the default `d`. -/
def jsOrNum (v : Option Rat) (d : Rat) : Rat :=
  match v with
  | none => d
  | some x => if x = 0 then d else x

/-- JS `v || d` on an optional object-valued field: every present object is
truthy, so only an absent field yields the default. -/
def jsOrVec (v : Option Vec3) (d : Vec3) : Vec3 := v.getD d

/-- The observable state of one loaded model: the position and uniform
scale that `SceneManager.loadModel` sets on the freshly loaded gltf scene
(`model.position.set(...)`, `model.scale.set(scale, scale, scale)`). -/
structure Model where
  position : Vec3
  scale : Rat
deriving DecidableEq, Repr

/-- One entry of `SceneManager.animations`, as registered by
`createOrbitAnimation` (object, center, speed, radius; the running angle
starts at 0 and is advanced by the render loop, which is not modelled) or
by `createBeatingAnimation` (object, its original scale cloned at
registration time, speed, intensity).  The source identifies the animated
object by reference; here it is identified by the model key under which the
executor looked it up in `sceneManager.models`. -/
inductive AnimationEntry where
  | orbit (objectKey : String) (center : Vec3) (speed radius : Rat)
  | beating (objectKey : String) (originalScale : Rat) (speed intensity : Rat)
deriving DecidableEq, Repr

/-- The mutable scene state of `SceneManager`: the `models` cache (a JS
object, so keyed and in insertion order) and the `animations` list. -/
structure SceneState where
  models : List (String × Model)
  animations : List AnimationEntry
deriving DecidableEq, Repr

/-- `SceneManager.availableModels`: the static model-key → asset-URL
catalog. -/
def availableModels : List (String × String) :=
  [("sun", "https://cdn.jsdelivr.net/gh/mrdoob/three.js@dev/examples/models/gltf/Planet.glb"),
   ("earth", "https://cdn.jsdelivr.net/gh/mrdoob/three.js@dev/examples/models/gltf/Earth.glb"),
   ("heart", "https://cdn.jsdelivr.net/gh/mrdoob/three.js@dev/examples/models/gltf/Heart.glb"),
   ("volcano", "https://cdn.jsdelivr.net/gh/mrdoob/three.js@dev/examples/models/gltf/Volcano.glb")]

/-- `SceneManager.loadModel(modelName, position, scale)`.  A cached key
resolves immediately with the cached model and no state change; an unknown
key rejects with `Model ${modelName} not available`; otherwise the loader
runs: on success (per the `fetchOk` oracle) the model is created at the
given position and scale and cached, on failure the promise rejects with
the loader's error (its text is environment-supplied; a fixed marker
string stands for it). -/
def loadModel (fetchOk : String → Bool) (s : SceneState) (modelName : String)
    (position : Vec3) (scale : Rat) : Except String (SceneState × Model) :=
  match s.models.lookup modelName with
  | some m => .ok (s, m)
  | none =>
    match availableModels.lookup modelName with
    | none => .error ("Model " ++ modelName ++ " not available")
    | some _url =>
      if fetchOk modelName then
        let m : Model := { position := position, scale := scale }
        .ok ({ s with models := s.models ++ [(modelName, m)] }, m)
      else
        .error ("failed to fetch " ++ modelName)

/-- `SceneManager.clearScene()`: removes every model from the scene, resets
the model cache to `{}` and the animation list to `[]`. -/
def clearScene (_s : SceneState) : SceneState :=
  { models := [], animations := [] }

/-- The body of one iteration of the `for...of` loop in
`UIManager.executeSceneActions`, i.e. the `switch (action.type)` inside the
`try`.  `.error` is an exception that would reach the surrounding `catch`.
An absent `model`/`object` field interpolates as JS `undefined`, which
misses every lookup.  A `switch` fall-through (unknown `type`), an unknown
`animation` kind, and the `if (model)` guard failing (missing animation
target) are all silent no-ops: no exception is thrown. -/
def executeActionBody (fetchOk : String → Bool) (s : SceneState)
    (a : SceneAction) : Except String SceneState :=
  if a.type == "loadModel" then
    match loadModel fetchOk s (a.model.getD "undefined")
        (jsOrVec a.position vzero) (jsOrNum a.scale 1) with
    | .ok (s1, _m) => .ok s1
    | .error e => .error e
  else if a.type == "animate" then
    match s.models.lookup (a.object.getD "undefined") with
    | some m =>
      if a.animation == some "orbit" then
        .ok { s with animations := s.animations ++
          [.orbit (a.object.getD "undefined") (jsOrVec a.center vzero)
            (jsOrNum a.speed (mkRat 1 100)) (jsOrNum a.radius 3)] }
      else if a.animation == some "beat" then
        .ok { s with animations := s.animations ++
          [.beating (a.object.getD "undefined") m.scale
            (jsOrNum a.speed (mkRat 1 10)) (jsOrNum a.intensity (mkRat 1 10))] }
      else if a.animation == some "pulse" then
        .ok { s with animations := s.animations ++
          [.beating (a.object.getD "undefined") m.scale
            (jsOrNum a.speed (mkRat 1 5)) (jsOrNum a.intensity (mkRat 1 20))] }
      else .ok s
    | none => .ok s
  else .ok s

/-- One iteration of `executeSceneActions` including its `try`/`catch`: a
thrown error is caught, `console.error`d with the offending action's type,
and leaves the scene state as it was.  The second component is the
iteration's log entry: `none` when the `catch` did not run, `some line`
for the logged error line. -/
def executeActionCaught (fetchOk : String → Bool) (s : SceneState)
    (a : SceneAction) : SceneState × Option String :=
  match executeActionBody fetchOk s a with
  | .ok s1 => (s1, none)
  | .error e => (s, some ("Error executing action " ++ a.type ++ ": " ++ e))

/-- `UIManager.executeSceneActions(actions)`: runs the actions strictly in
list order, awaiting each before the next; returns the final scene state
and the per-action log (one entry per action, `some` for a caught-and-logged
failure). -/
def executeSceneActions (fetchOk : String → Bool) (s : SceneState) :
    List SceneAction → SceneState × List (Option String)
  | [] => (s, [])
  | a :: rest =>
    let p := executeActionCaught fetchOk s a
    let q := executeSceneActions fetchOk p.1 rest
    (q.1, p.2 :: q.2)

/-- The everything-succeeds asset-fetch oracle. -/
def allOk : String → Bool := fun _ => true

/-- The empty scene (fresh `SceneManager` state). -/
def emptyScene : SceneState := { models := [], animations := [] }

/-- A quiz record of the topic registry. -/
structure QuizSpec where
  question : String
  options : List String
  correctAnswer : String
  correctFeedback : String
  incorrectFeedback : String
deriving DecidableEq, Repr

/-- One named response template of a topic: narration text, the ordered
scene-action list, and the optional quiz. -/
structure ResponseTemplate where
  narration : String
  actions : List SceneAction
  quiz : Option QuizSpec := none
deriving DecidableEq, Repr

/-- One topic of `AIOrchestrator.topics`: display name, description, and
the intent-key → template map (a JS object, so keyed and in insertion
order). -/
structure Topic where
  name : String
  description : String
  responses : List (String × ResponseTemplate)
deriving DecidableEq, Repr

/-- The quiz of the solar-system `explain` template. -/
def solarQuiz : QuizSpec :=
  { question := "What keeps Earth in orbit around the Sun?",
    options := ["Electromagnetic forces", "Gravity", "Solar wind", "Centrifugal force"],
    correctAnswer := "Gravity",
    correctFeedback := "Correct! Gravity is the force that keeps Earth in orbit around the Sun.",
    incorrectFeedback := "Not quite. The correct answer is Gravity, which is the attractive force between two masses." }

/-- The quiz of the heart-anatomy `explain` template. -/
def heartQuiz : QuizSpec :=
  { question := "How many chambers does the human heart have?",
    options := ["2", "3", "4", "5"],
    correctAnswer := "4",
    correctFeedback := "That\x27s right! The heart has four chambers: two atria and two ventricles.",
    incorrectFeedback := "Actually, the human heart has four chambers: two atria and two ventricles." }

/-- The quiz of the volcano `explain` template. -/
def volcanoQuiz : QuizSpec :=
  { question := "What is molten rock beneath the Earth\x27s surface called?",
    options := ["Lava", "Magma", "Igneous", "Basalt"],
    correctAnswer := "Magma",
    correctFeedback := "Correct! Magma is molten rock below the surface, which becomes lava when it erupts.",
    incorrectFeedback := "Not quite. The correct answer is Magma. Lava is what it\x27s called after it erupts." }

/-- The `explain` template of the `solar-system` topic. -/
def solarExplain : ResponseTemplate :=
  { narration := "This is our solar system. The Sun is at the center, and planets like Earth orbit around it due to gravity. The Sun is a massive star that provides light and heat to all the planets in our solar system.",
    actions :=
      [{ type := "loadModel", model := some "sun", position := some ⟨0, 0, 0⟩, scale := some (mkRat 3 2) },
       { type := "loadModel", model := some "earth", position := some ⟨3, 0, 0⟩, scale := some (mkRat 7 10) },
       { type := "animate", animation := some "orbit", object := some "earth",
         center := some ⟨0, 0, 0⟩, speed := some (mkRat 1 100), radius := some 3 }],
    quiz := some solarQuiz }

/-- The `scale` template of the `solar-system` topic. -/
def solarScale : ResponseTemplate :=
  { narration := "The scale of our solar system is enormous. The Sun is much larger than Earth - about 109 times wider. The distance between them is about 150 million kilometers!",
    actions :=
      [{ type := "loadModel", model := some "sun", position := some ⟨0, 0, 0⟩, scale := some 2 },
       { type := "loadModel", model := some "earth", position := some ⟨5, 0, 0⟩, scale := some (mkRat 1 5) },
       { type := "animate", animation := some "orbit", object := some "earth",
         center := some ⟨0, 0, 0⟩, speed := some (mkRat 1 200), radius := some 5 }] }

/-- The `explain` template of the `heart-anatomy` topic. -/
def heartExplain : ResponseTemplate :=
  { narration := "This is a model of the human heart. It has four chambers: two atria on top and two ventricles below. The heart pumps blood throughout the body, delivering oxygen and nutrients to tissues.",
    actions :=
      [{ type := "loadModel", model := some "heart", position := some ⟨0, 0, 0⟩, scale := some (mkRat 6 5) },
       { type := "animate", animation := some "beat", object := some "heart",
         speed := some (mkRat 1 10), intensity := some (mkRat 1 10) }],
    quiz := some heartQuiz }

/-- The `function` template of the `heart-anatomy` topic. -/
def heartFunction : ResponseTemplate :=
  { narration := "The heart functions as a pump. The right side receives oxygen-poor blood and sends it to the lungs. The left side receives oxygen-rich blood from the lungs and pumps it to the body.",
    actions :=
      [{ type := "loadModel", model := some "heart", position := some ⟨0, 0, 0⟩, scale := some (mkRat 6 5) },
       { type := "animate", animation := some "beat", object := some "heart",
         speed := some (mkRat 3 20), intensity := some (mkRat 3 20) }] }

/-- The `explain` template of the `volcano` topic. -/
def volcanoExplain : ResponseTemplate :=
  { narration := "This is a volcano. It forms when magma from within the Earth erupts through the crust. Volcanoes can be found on land and under the ocean, and they play a key role in shaping Earth\x27s surface.",
    actions :=
      [{ type := "loadModel", model := some "volcano", position := some ⟨0, mkRat (-1) 1, 0⟩, scale := some (mkRat 3 2) }],
    quiz := some volcanoQuiz }

/-- The `eruption` template of the `volcano` topic. -/
def volcanoEruption : ResponseTemplate :=
  { narration := "During a volcanic eruption, magma rises through the volcano\x27s conduit and is expelled as lava, ash, and gases. The type of eruption depends on the magma\x27s viscosity and gas content.",
    actions :=
      [{ type := "loadModel", model := some "volcano", position := some ⟨0, mkRat (-1) 1, 0⟩, scale := some (mkRat 3 2) },
       { type := "animate", animation := some "pulse", object := some "volcano",
         speed := some (mkRat 1 5), intensity := some (mkRat 1 20) }] }

/-- The `solar-system` topic entry. -/
def solarTopic : Topic :=
  { name := "Solar System",
    description := "Learn about our solar system and planetary motion",
    responses := [("explain", solarExplain), ("scale", solarScale)] }

/-- The `heart-anatomy` topic entry. -/
def heartTopic : Topic :=
  { name := "Heart Anatomy",
    description := "Explore the structure and function of the human heart",
    responses := [("explain", heartExplain), ("function", heartFunction)] }

/-- The `volcano` topic entry. -/
def volcanoTopic : Topic :=
  { name := "Volcano",
    description := "Learn about volcanic structures and eruptions",
    responses := [("explain", volcanoExplain), ("eruption", volcanoEruption)] }

/-- `AIOrchestrator.topics`: the static topic registry, built once in the
constructor and never mutated. -/
def topics : List (String × Topic) :=
  [("solar-system", solarTopic), ("heart-anatomy", heartTopic), ("volcano", volcanoTopic)]

/-- JS `hay.includes(needle)`: substring containment. -/
def strIncludes (hay needle : String) : Bool :=
  hay.data.tails.any fun t => needle.data.isPrefixOf t

/-- JS `s.toLowerCase()` (character-wise lowering, which is all the ASCII
queries here exercise).  Same mapping as `String.toLower`, restated over
the character list so that it kernel-reduces. -/
def strToLower (s : String) : String := String.mk (s.data.map Char.toLower)

/-- The intent-detection prelude of `AIOrchestrator.processQuery`: the
`if`/`else if` chain over `query.toLowerCase().includes(...)`, first match
wins, `'unknown'` when nothing matches. -/
def detectIntent (topic query : String) : String :=
  if strIncludes (strToLower query) "explain" then "explain"
  else if strIncludes (strToLower query) "scale" && topic == "solar-system" then "scale"
  else if strIncludes (strToLower query) "function" && topic == "heart-anatomy" then "function"
  else if strIncludes (strToLower query) "eruption" && topic == "volcano" then "eruption"
  else "unknown"

/-- The `{ topic, intent, response }` bundle `processQuery` resolves to. -/
structure Bundle where
  topic : String
  intent : String
  response : ResponseTemplate
deriving DecidableEq, Repr

/-- The synthetic last-resort template `processQuery` builds inline when a
topic lacks an `explain` entry (`responses.explain || {...}`): fixed
narration, empty action list, no quiz field. -/
def fallbackTemplate : ResponseTemplate :=
  { narration := "I\x27m not sure how to answer that. Try asking me to explain this topic.",
    actions := [],
    quiz := none }

/-- `AIOrchestrator.processQuery(topic, query)` generalized over the
registry it reads (the method reads `this.topics`; see `processQuery`).
Unknown topic returns `none` (JS `null`); a detected intent with a template
returns that bundle; otherwise the intent is redirected to `explain`, with
the synthetic `fallbackTemplate` when `explain` itself is absent. -/
def processQueryWith (registry : List (String × Topic)) (topic query : String) :
    Option Bundle :=
  let intent := detectIntent topic query
  match registry.lookup topic with
  | none => none
  | some topicData =>
    match topicData.responses.lookup intent with
    | some r => some { topic := topic, intent := intent, response := r }
    | none =>
      some { topic := topic, intent := "explain",
             response := (topicData.responses.lookup "explain").getD fallbackTemplate }

/-- `AIOrchestrator.processQuery(topic, query)` against the static
registry. -/
def processQuery (topic query : String) : Option Bundle :=
  processQueryWith topics topic query

/-- How a turn of the dispatch loop ends: normally, or with an exception
escaping the (async) function as a promise rejection. -/
inductive TurnResult where
  | ok
  | thrown (msg : String)
deriving DecidableEq, Repr

/-- The observable state `UIManager` drives in one turn: the current topic
field, the scene, the chat transcript (messages appended by
`addChatMessage`), the texts handed to `voiceSystem.speak`, and the quiz
last surfaced by `displayQuiz`. -/
structure TurnState where
  currentTopic : Option String
  scene : SceneState
  chat : List String
  spoken : List String
  quizShown : Option QuizSpec
deriving DecidableEq, Repr

/-- `UIManager.handleAIResponse(response)`: a `null` response returns
immediately; otherwise the narration is appended to the chat, handed to
`speak`, the scene actions are executed, and a quiz, when present, is
surfaced. -/
def handleAIResponse (fetchOk : String → Bool) (st : TurnState)
    (response : Option Bundle) : TurnState :=
  match response with
  | none => st
  | some b =>
    let st1 := { st with chat := st.chat ++ [b.response.narration],
                         spoken := st.spoken ++ [b.response.narration] }
    let st2 := { st1 with scene := (executeSceneActions fetchOk st1.scene b.response.actions).1 }
    match b.response.quiz with
    | some q => { st2 with quizShown := some q }
    | none => st2

/-- `UIManager.loadTopic(topicId)` — the `handleTurn(topicId, null)` topic
switch.  It sets `currentTopic`, clears the scene, and then, BEFORE its
`try` block, interpolates `this.aiOrchestrator.topics[topicId].name` into
the loading message: for a topic id absent from the registry this property
access throws a `TypeError` that escapes the async function uncaught.  For
a registered topic the loading message is appended, `processQuery(topicId,
'explain')` is awaited and its bundle dispatched via `handleAIResponse`;
nothing in that path throws, so the `catch` branch is not reachable for a
registered topic. -/
def loadTopic (fetchOk : String → Bool) (st : TurnState) (topicId : String) :
    TurnState × TurnResult :=
  let st1 := { st with currentTopic := some topicId, scene := clearScene st.scene }
  match topics.lookup topicId with
  | none =>
    (st1, .thrown "TypeError: Cannot read properties of undefined (reading \x27name\x27)")
  | some t =>
    let st2 := { st1 with chat := st1.chat ++ ["Loading " ++ t.name ++ " lesson..."] }
    (handleAIResponse fetchOk st2 (processQuery topicId "explain"), .ok)

/-- The model keys named by the `loadModel` actions of an action list. -/
def loadKeys (acts : List SceneAction) : List String :=
  acts.filterMap fun a => if a.type == "loadModel" then a.model else none

/-- The model keys named by a topic's `explain` template. -/
def explainLoadKeys (topicId : String) : List String :=
  match topics.lookup topicId with
  | some t =>
    match t.responses.lookup "explain" with
    | some r => loadKeys r.actions
    | none => []
  | none => []

/-- A fresh application state: no topic, empty scene, empty transcript. -/
def initState : TurnState :=
  { currentTopic := none, scene := emptyScene, chat := [], spoken := [],
    quizShown := none }

/-- An asset-fetch oracle under which the `sun` asset fails to load and
everything else succeeds. -/
def sunFails : String → Bool := fun k => !(k == "sun")

/-- The `LoadModel("sun", ...)` action of the sequencing scenario. -/
def loadSunAct : SceneAction :=
  { type := "loadModel", model := some "sun", position := some ⟨0, 0, 0⟩,
    scale := some (mkRat 3 2) }

/-- An `Animate(Orbit, "sun")` action with all optional parameters
omitted. -/
def orbitSunAct : SceneAction :=
  { type := "animate", animation := some "orbit", object := some "sun" }

/-- An `Animate(Orbit, "ghost")` action whose target key is never in the
scene. -/
def ghostOrbitAct : SceneAction :=
  { type := "animate", animation := some "orbit", object := some "ghost" }

/-- A topic with no templates at all, exercising the last-resort synthetic
fallback of `processQueryWith`. -/
def toyTopic : Topic := { name := "Toy", description := "toy topic", responses := [] }

/-- A registry whose only topic has no `explain` template. -/
def toyRegistry : List (String × Topic) := [("toy", toyTopic)]

/-- A scene whose cache holds the sun model as the solar-system explain
template leaves it. -/
def sunScene : SceneState :=
  { models := [("sun", { position := ⟨0, 0, 0⟩, scale := mkRat 3 2 })], animations := [] }

/-- The application state after a successful initial load of the volcano
topic: the scene contains the volcano model. -/
def preVolcano : TurnState := (loadTopic allOk initState "volcano").1

/-- Claim C8: for every quiz in the static topic registry, the
`correctAnswer` string is an element of the `options` sequence. -/
theorem c8_quiz_answer_among_options :
    ∀ p ∈ topics, ∀ kr ∈ p.2.responses, ∀ q ∈ kr.2.quiz.toList,
      q.correctAnswer ∈ q.options := by decide

/-- Witness for C8 at the solar-system explain quiz. -/
theorem c8_quiz_answer_among_options_witness :
    solarQuiz.correctAnswer ∈ solarQuiz.options :=
  c8_quiz_answer_among_options ("solar-system", solarTopic) (by decide)
    ("explain", solarExplain) (by decide) solarQuiz (by decide)

/-- Claim C3: the intent resolver is a deterministic function of
`(topicId, rawQuery)`: it lower-cases the query and applies the substring
rules in fixed priority order, first match winning — `"explain"` anywhere
wins outright; `"scale"`, `"function"`, `"eruption"` are gated to the
`solar-system`, `heart-anatomy`, `volcano` topics respectively; otherwise
`unknown`.  Concretely, `resolve("solar-system", "Can you explain this?")`
is `explain`, `resolve("solar-system", "what about the scale")` is
`scale`, and `resolve("heart-anatomy", "scale")` falls through to
`unknown` and is redirected to the explain template. -/
theorem c3_intent_resolution :
    (∀ topic query, strIncludes (strToLower query) "explain" = true →
      detectIntent topic query = "explain") ∧
    (∀ topic query, detectIntent topic query = "scale" →
      strIncludes (strToLower query) "scale" = true ∧ topic = "solar-system") ∧
    (∀ topic query, detectIntent topic query = "function" →
      strIncludes (strToLower query) "function" = true ∧ topic = "heart-anatomy") ∧
    (∀ topic query, detectIntent topic query = "eruption" →
      strIncludes (strToLower query) "eruption" = true ∧ topic = "volcano") ∧
    detectIntent "solar-system" "Can you explain this?" = "explain" ∧
    detectIntent "solar-system" "what about the scale" = "scale" ∧
    detectIntent "heart-anatomy" "scale" = "unknown" ∧
    processQuery "heart-anatomy" "scale" =
      some { topic := "heart-anatomy", intent := "explain", response := heartExplain } := by
  refine ⟨?_, ?_, ?_, ?_, by decide, by decide, by decide, by decide⟩
  · intro topic query h
    unfold detectIntent
    simp [h]
  · intro topic query h
    unfold detectIntent at h
    split at h
    · simp_all
    · split at h
      · rename_i hc
        rw [Bool.and_eq_true] at hc
        exact ⟨hc.1, eq_of_beq hc.2⟩
      · split at h
        · simp_all
        · split at h
          · simp_all
          · simp_all
  · intro topic query h
    unfold detectIntent at h
    split at h
    · simp_all
    · split at h
      · simp_all
      · split at h
        · rename_i hc
          rw [Bool.and_eq_true] at hc
          exact ⟨hc.1, eq_of_beq hc.2⟩
        · split at h
          · simp_all
          · simp_all
  · intro topic query h
    unfold detectIntent at h
    split at h
    · simp_all
    · split at h
      · simp_all
      · split at h
        · simp_all
        · split at h
          · rename_i hc
            rw [Bool.and_eq_true] at hc
            exact ⟨hc.1, eq_of_beq hc.2⟩
          · simp_all

/-- Witness for C3: the first rule fires on a concrete query containing
`explain`. -/
theorem c3_intent_resolution_witness :
    strIncludes (strToLower "PLEASE EXPLAIN the eruption") "explain" = true ∧
    detectIntent "volcano" "PLEASE EXPLAIN the eruption" = "explain" :=
  ⟨by decide,
   c3_intent_resolution.1 "volcano" "PLEASE EXPLAIN the eruption" (by decide)⟩

/-- Claim C5: for a known topic, when the detected intent key has no
template in the topic's response map, `processQuery` returns the topic's
`explain` template under the `explain` intent; when `explain` itself is
absent it returns the structurally valid synthetic fallback (fixed
narration, empty action list, no quiz).  In either case a bundle is
returned, never an error. -/
theorem c5_unresolved_intent_fallback (registry : List (String × Topic))
    (topic query : String) (t : Topic)
    (h1 : registry.lookup topic = some t)
    (h2 : t.responses.lookup (detectIntent topic query) = none) :
    processQueryWith registry topic query =
      some { topic := topic, intent := "explain",
             response := (t.responses.lookup "explain").getD fallbackTemplate } ∧
    (t.responses.lookup "explain" = none →
      processQueryWith registry topic query =
        some { topic := topic, intent := "explain", response := fallbackTemplate }) ∧
    fallbackTemplate.actions = [] ∧ fallbackTemplate.quiz = none := by
  have hmain : processQueryWith registry topic query =
      some { topic := topic, intent := "explain",
             response := (t.responses.lookup "explain").getD fallbackTemplate } := by
    unfold processQueryWith
    rw [h1]
    dsimp only
    rw [h2]
  refine ⟨hmain, fun he => ?_, rfl, rfl⟩
  rw [hmain, he]
  rfl

/-- Witness for C5: `volcano`/`"hello"` resolves to `unknown` and is
redirected to the volcano explain template; on a registry whose topic has
no `explain` template at all, the synthetic fallback is returned. -/
theorem c5_unresolved_intent_fallback_witness :
    processQueryWith topics "volcano" "hello" =
      some { topic := "volcano", intent := "explain",
             response := (volcanoTopic.responses.lookup "explain").getD fallbackTemplate } ∧
    processQueryWith toyRegistry "toy" "hello" =
      some { topic := "toy", intent := "explain", response := fallbackTemplate } :=
  ⟨(c5_unresolved_intent_fallback topics "volcano" "hello" volcanoTopic
      (by decide) (by decide)).1,
   (c5_unresolved_intent_fallback toyRegistry "toy" "hello" toyTopic
      (by decide) (by decide)).2.1 (by decide)⟩

/-- Claim C9: `loadModel` on a key already in the model cache resolves
immediately with the previously loaded model and leaves the scene
unchanged, ignoring the new position and scale arguments; consequently
running the solar-system `scale` template after the `explain` template
leaves every model exactly as `explain` loaded it (the sun keeps scale 1.5,
not the 2 the scale template asks for). -/
theorem c9_cached_load_ignores_arguments (fetchOk : String → Bool)
    (s : SceneState) (key : String) (p : Vec3) (sc : Rat) (m : Model)
    (h : s.models.lookup key = some m) :
    loadModel fetchOk s key p sc = .ok (s, m) ∧
    (executeSceneActions allOk emptyScene (solarExplain.actions ++ solarScale.actions)).1.models =
      (executeSceneActions allOk emptyScene solarExplain.actions).1.models ∧
    (executeSceneActions allOk emptyScene
        (solarExplain.actions ++ solarScale.actions)).1.models.lookup "sun" =
      some { position := ⟨0, 0, 0⟩, scale := mkRat 3 2 } := by
  refine ⟨?_, by decide, by decide⟩
  unfold loadModel
  rw [h]

/-- Witness for C9: reloading the cached sun with a different position and
scale returns the cached model and the unchanged scene. -/
theorem c9_cached_load_ignores_arguments_witness :
    loadModel allOk sunScene "sun" ⟨9, 9, 9⟩ 5 =
      .ok (sunScene, { position := ⟨0, 0, 0⟩, scale := mkRat 3 2 }) :=
  (c9_cached_load_ignores_arguments allOk sunScene "sun" ⟨9, 9, 9⟩ 5
    { position := ⟨0, 0, 0⟩, scale := mkRat 3 2 } (by decide)).1

/-- Claim C6: when a template omits an action's optional parameters, the
executor applies exactly the documented defaults: `loadModel` position
origin and scale 1; `orbit` center origin, speed 0.01, radius 3; `beat`
speed 0.1, intensity 0.1; `pulse` speed 0.2, intensity 0.05. -/
theorem c6_omitted_parameter_defaults (fetchOk : String → Bool) (s : SceneState)
    (key ukey url : String) (m : Model)
    (hm : s.models.lookup key = some m)
    (hu : s.models.lookup ukey = none)
    (ha : availableModels.lookup ukey = some url)
    (hf : fetchOk ukey = true) :
    executeActionCaught fetchOk s { type := "loadModel", model := some ukey } =
      ({ s with models := s.models ++ [(ukey, { position := vzero, scale := 1 })] }, none) ∧
    executeActionCaught fetchOk s
        { type := "animate", animation := some "orbit", object := some key } =
      ({ s with animations := s.animations ++ [.orbit key vzero (mkRat 1 100) 3] }, none) ∧
    executeActionCaught fetchOk s
        { type := "animate", animation := some "beat", object := some key } =
      ({ s with animations := s.animations ++
          [.beating key m.scale (mkRat 1 10) (mkRat 1 10)] }, none) ∧
    executeActionCaught fetchOk s
        { type := "animate", animation := some "pulse", object := some key } =
      ({ s with animations := s.animations ++
          [.beating key m.scale (mkRat 1 5) (mkRat 1 20)] }, none) := by
  refine ⟨?_, ?_, ?_, ?_⟩ <;>
    simp [executeActionCaught, executeActionBody, loadModel, hm, hu, ha, hf,
      jsOrNum, jsOrVec]

/-- Witness for C6 at a concrete scene: the heart model is loaded, a `beat`
action with omitted parameters gets speed 0.1 and intensity 0.1, and an
omitted-parameter `loadModel` of `earth` lands at the origin with
scale 1. -/
theorem c6_omitted_parameter_defaults_witness :
    executeActionCaught allOk sunScene { type := "loadModel", model := some "earth" } =
      ({ sunScene with models := sunScene.models ++
          [("earth", { position := vzero, scale := 1 })] }, none) ∧
    executeActionCaught allOk sunScene
        { type := "animate", animation := some "orbit", object := some "sun" } =
      ({ sunScene with animations := sunScene.animations ++
          [.orbit "sun" vzero (mkRat 1 100) 3] }, none) :=
  ⟨(c6_omitted_parameter_defaults allOk sunScene "sun" "earth" "https://cdn.jsdelivr.net/gh/mrdoob/three.js@dev/examples/models/gltf/Earth.glb"
      { position := ⟨0, 0, 0⟩, scale := mkRat 3 2 }
      (by decide) (by decide) (by decide) (by decide)).1,
   (c6_omitted_parameter_defaults allOk sunScene "sun" "earth" "https://cdn.jsdelivr.net/gh/mrdoob/three.js@dev/examples/models/gltf/Earth.glb"
      { position := ⟨0, 0, 0⟩, scale := mkRat 3 2 }
      (by decide) (by decide) (by decide) (by decide)).2.1⟩

/-- Claim C10: an optional numeric parameter explicitly set to `0` is
indistinguishable from an omitted one: the JS `||` default coercion treats
`0` as falsy, so the executor substitutes the default (orbit speed 0.01 and
radius 3, beat speed 0.1 and intensity 0.1, pulse speed 0.2 and intensity
0.05, loadModel scale 1) instead of the explicit `0`. -/
theorem c10_explicit_zero_coerced_to_default (fetchOk : String → Bool)
    (s : SceneState) (key ukey url : String) (m : Model)
    (hm : s.models.lookup key = some m)
    (hu : s.models.lookup ukey = none)
    (ha : availableModels.lookup ukey = some url)
    (hf : fetchOk ukey = true) :
    executeActionCaught fetchOk s
        { type := "animate", animation := some "orbit", object := some key,
          speed := some 0, radius := some 0 } =
      executeActionCaught fetchOk s
        { type := "animate", animation := some "orbit", object := some key } ∧
    executeActionCaught fetchOk s
        { type := "animate", animation := some "orbit", object := some key,
          speed := some 0, radius := some 0 } =
      ({ s with animations := s.animations ++ [.orbit key vzero (mkRat 1 100) 3] }, none) ∧
    executeActionCaught fetchOk s
        { type := "animate", animation := some "beat", object := some key,
          speed := some 0, intensity := some 0 } =
      ({ s with animations := s.animations ++
          [.beating key m.scale (mkRat 1 10) (mkRat 1 10)] }, none) ∧
    executeActionCaught fetchOk s
        { type := "animate", animation := some "pulse", object := some key,
          speed := some 0, intensity := some 0 } =
      ({ s with animations := s.animations ++
          [.beating key m.scale (mkRat 1 5) (mkRat 1 20)] }, none) ∧
    executeActionCaught fetchOk s
        { type := "loadModel", model := some ukey, scale := some 0 } =
      ({ s with models := s.models ++ [(ukey, { position := vzero, scale := 1 })] }, none) := by
  refine ⟨?_, ?_, ?_, ?_, ?_⟩ <;>
    simp [executeActionCaught, executeActionBody, loadModel, hm, hu, ha, hf,
      jsOrNum, jsOrVec]

/-- Witness for C10: an orbit action on the cached sun with explicit
`speed: 0, radius: 0` registers the default speed 0.01 and radius 3. -/
theorem c10_explicit_zero_coerced_to_default_witness :
    executeActionCaught allOk sunScene
        { type := "animate", animation := some "orbit", object := some "sun",
          speed := some 0, radius := some 0 } =
      ({ sunScene with animations := sunScene.animations ++
          [.orbit "sun" vzero (mkRat 1 100) 3] }, none) :=
  (c10_explicit_zero_coerced_to_default allOk sunScene "sun" "earth"
    "https://cdn.jsdelivr.net/gh/mrdoob/three.js@dev/examples/models/gltf/Earth.glb"
    { position := ⟨0, 0, 0⟩, scale := mkRat 3 2 }
    (by decide) (by decide) (by decide) (by decide)).2.1

/-- Counterexample to claim C1 as stated: a missing animation target is NOT
logged.  Executing a single `Animate` action whose target key is absent
from the scene yields the outcome `none` — the `catch` never ran and no
error line was emitted — rather than a logged failure. -/
theorem c1_missing_target_not_logged :
    emptyScene.models.lookup "ghost" = none ∧
    executeSceneActions allOk emptyScene [ghostOrbitAct] = (emptyScene, [none]) := by
  decide

/-- Claim C1 (amended): an asset load rejection or an unknown model key is
caught and logged with the offending action's type, leaving the scene
unchanged; a missing animation target is skipped silently with no log
entry; in every case each subsequent action in the list still executes and
`executeSceneActions` never propagates an exception — it returns exactly
one per-action outcome per action. -/
theorem c1_failure_containment :
    (∀ fetchOk s a e rest, executeActionBody fetchOk s a = .error e →
      executeSceneActions fetchOk s (a :: rest) =
        ((executeSceneActions fetchOk s rest).1,
         some ("Error executing action " ++ a.type ++ ": " ++ e) ::
           (executeSceneActions fetchOk s rest).2)) ∧
    (∀ fetchOk s key, s.models.lookup key = none →
      availableModels.lookup key = none →
      executeActionBody fetchOk s { type := "loadModel", model := some key } =
        .error ("Model " ++ key ++ " not available")) ∧
    (∀ fetchOk s key url, s.models.lookup key = none →
      availableModels.lookup key = some url → fetchOk key = false →
      executeActionBody fetchOk s { type := "loadModel", model := some key } =
        .error ("failed to fetch " ++ key)) ∧
    (∀ fetchOk s a, a.type = "animate" →
      s.models.lookup (a.object.getD "undefined") = none →
      executeActionCaught fetchOk s a = (s, none)) ∧
    (∀ fetchOk s acts, (executeSceneActions fetchOk s acts).2.length = acts.length) := by
  refine ⟨?_, ?_, ?_, ?_, ?_⟩
  · intro fetchOk s a e rest h
    have hc : executeActionCaught fetchOk s a =
        (s, some ("Error executing action " ++ a.type ++ ": " ++ e)) := by
      unfold executeActionCaught
      rw [h]
    simp only [executeSceneActions, hc]
  · intro fetchOk s key h1 h2
    simp [executeActionBody, loadModel, h1, h2]
  · intro fetchOk s key url h1 h2 hf
    simp [executeActionBody, loadModel, h1, h2, hf]
  · intro fetchOk s a ht h
    simp [executeActionCaught, executeActionBody, ht, h]
  · intro fetchOk s acts
    induction acts generalizing s with
    | nil => rfl
    | cons a rest ih => simp [executeSceneActions, ih]

/-- Witness for C1: an unknown model key is logged with the action type; a
fetch failure of `sun` is an error of the executor body; the
missing-target `Animate` is skipped with no log entry; and a two-action
list always yields two outcomes. -/
theorem c1_failure_containment_witness :
    executeSceneActions allOk emptyScene
        [{ type := "loadModel", model := some "ghost" }, ghostOrbitAct] =
      ((executeSceneActions allOk emptyScene [ghostOrbitAct]).1,
       some ("Error executing action " ++ "loadModel" ++ ": " ++
         ("Model " ++ "ghost" ++ " not available")) ::
         (executeSceneActions allOk emptyScene [ghostOrbitAct]).2) ∧
    executeActionBody sunFails emptyScene { type := "loadModel", model := some "sun" } =
      .error ("failed to fetch " ++ "sun") ∧
    executeActionCaught allOk emptyScene ghostOrbitAct = (emptyScene, none) ∧
    (executeSceneActions sunFails emptyScene [loadSunAct, orbitSunAct]).2.length =
      ([loadSunAct, orbitSunAct] : List SceneAction).length :=
  ⟨c1_failure_containment.1 allOk emptyScene
      { type := "loadModel", model := some "ghost" }
      ("Model " ++ "ghost" ++ " not available") [ghostOrbitAct] rfl,
   c1_failure_containment.2.2.1 sunFails emptyScene "sun"
      "https://cdn.jsdelivr.net/gh/mrdoob/three.js@dev/examples/models/gltf/Planet.glb"
      (by decide) (by decide) (by decide),
   c1_failure_containment.2.2.2.1 allOk emptyScene ghostOrbitAct (by decide) (by decide),
   c1_failure_containment.2.2.2.2 sunFails emptyScene [loadSunAct, orbitSunAct]⟩

/-- Claim C2: the executor runs actions strictly in list order, awaiting
each before the next: executing `as ++ bs` first executes `as`, then
executes `bs` from the state `as` produced, concatenating the outcome
logs.  For `[LoadModel("sun"), Animate(Orbit, "sun")]`: when the load
succeeds, the orbit animation is registered against the loaded sun; when
the sun fetch fails, the load failure is logged, the `Animate` is still
attempted and completes without throwing (its target absent, so no
animation is registered). -/
theorem c2_sequential_execution :
    (∀ (fetchOk : String → Bool) (s : SceneState) (as bs : List SceneAction),
      executeSceneActions fetchOk s (as ++ bs) =
        ((executeSceneActions fetchOk (executeSceneActions fetchOk s as).1 bs).1,
         (executeSceneActions fetchOk s as).2 ++
           (executeSceneActions fetchOk (executeSceneActions fetchOk s as).1 bs).2)) ∧
    executeSceneActions allOk emptyScene [loadSunAct, orbitSunAct] =
      ({ models := [("sun", { position := ⟨0, 0, 0⟩, scale := mkRat 3 2 })],
         animations := [.orbit "sun" vzero (mkRat 1 100) 3] }, [none, none]) ∧
    executeSceneActions sunFails emptyScene [loadSunAct, orbitSunAct] =
      (emptyScene, [some "Error executing action loadModel: failed to fetch sun", none]) := by
  refine ⟨?_, by decide, by decide⟩
  intro fetchOk s as
  induction as generalizing s with
  | nil => intro bs; rfl
  | cons a as ih => intro bs; simp [executeSceneActions, ih]

/-- Claim C4 (the code contradicts it): on `loadTopic("mars-colony")` the
scene is cleared BEFORE the registry lookup, and the loading-message
interpolation `topics[topicId].name` then throws an uncaught `TypeError`
for the absent topic — so the turn aborts by exception rather than by a
distinct `TopicNotFound` signal, and the scene has been mutated (emptied);
no narration is emitted.  `processQuery` itself does signal the unknown
topic distinctly by returning `null`, but the topic-switch path never
reaches it. -/
theorem c4_unknown_topic_turn :
    (loadTopic allOk preVolcano "mars-colony").2 =
      .thrown "TypeError: Cannot read properties of undefined (reading \x27name\x27)" ∧
    (loadTopic allOk preVolcano "mars-colony").1.scene ≠ preVolcano.scene ∧
    (loadTopic allOk preVolcano "mars-colony").1.scene = emptyScene ∧
    (loadTopic allOk preVolcano "mars-colony").1.chat = preVolcano.chat ∧
    (loadTopic allOk preVolcano "mars-colony").1.spoken = preVolcano.spoken ∧
    processQuery "mars-colony" "explain" = none := by
  decide

/-- Claim C7: a topic switch is idempotent with respect to scene
population: loading a registered topic twice in a row clears and reloads
the scene both times, and after each reload the model cache holds exactly
one instance of each model key named by the topic's explain template, with
no duplicate accumulation. -/
theorem c7_idempotent_topic_switch (topicId : String) (st : TurnState)
    (h : topicId = "solar-system" ∨ topicId = "heart-anatomy" ∨ topicId = "volcano") :
    (loadTopic allOk (loadTopic allOk st topicId).1 topicId).1.scene =
      (loadTopic allOk st topicId).1.scene ∧
    (loadTopic allOk st topicId).1.scene.models.map Prod.fst = explainLoadKeys topicId ∧
    (explainLoadKeys topicId).Nodup := by
  rcases h with h | h | h <;> subst h <;> exact ⟨rfl, rfl, by decide⟩

/-- Witness for C7: switching to `solar-system` twice from a fresh state
reloads exactly the sun and earth models, once each. -/
theorem c7_idempotent_topic_switch_witness :
    (loadTopic allOk (loadTopic allOk initState "solar-system").1 "solar-system").1.scene =
      (loadTopic allOk initState "solar-system").1.scene ∧
    (loadTopic allOk initState "solar-system").1.scene.models.map Prod.fst =
      explainLoadKeys "solar-system" ∧
    (explainLoadKeys "solar-system").Nodup :=
  c7_idempotent_topic_switch "solar-system" initState (Or.inl rfl)
